import Mathlib

/-!
Verification development for the `docusaurus-plugin-openapi` plugin
(`src/docusaurus-plugin-openapi/src/index.ts`), a Docusaurus site-integration
adapter.  The TypeScript source is shallowly embedded: each lifecycle hook of
the plugin object returned by `pluginOpenAPI` becomes a pure Lean function, the
host-provided `createData` / `addRoute` actions are recorded as explicit call
lists, and JavaScript array/object idioms (`findIndex` returning `-1`,
`delete arr[i]` leaving a hole, insertion-ordered objects) are modelled
explicitly.
-/

namespace OpenApiPlugin

/-- The admonitions configuration is an arbitrary JS object; we model it as an
association list of string fields.  The default `{}` is the empty list.  A JS
falsy value for the option (e.g. `false`) is modelled as `none` at the
`PluginOptions.admonitions` field. -/
abbrev AdmonCfg : Type := List (String × String)

/-- An entry of the `remarkPlugins` / `rehypePlugins` lists.  User-supplied
plugins are opaque (`user n`); the entry `[admonitions, options.admonitions]`
appended by the plugin setup (index.ts lines 45-49) is `admonitionsEntry cfg`. -/
inductive RemarkEntry : Type where
  | user (id : Nat)
  | admonitionsEntry (cfg : AdmonCfg)
  deriving DecidableEq, Repr

/-- The `PluginOptions` record from types.ts as used by index.ts.
`admonitions` is `Option AdmonCfg`: `some cfg` is a truthy JS object, `none` a
falsy value. -/
structure PluginOptions : Type where
  routeBasePath : String
  openapiPath : String
  apiLayoutComponent : String
  apiItemComponent : String
  remarkPlugins : List RemarkEntry
  rehypePlugins : List RemarkEntry
  admonitions : Option AdmonCfg
  sidebarLabel : String
  pageId : String
  deriving DecidableEq, Repr

/-- The user-supplied `opts : Partial<PluginOptions>`; a `none` field is a key
absent from the object (so the spread merge keeps the default). -/
structure PartialOptions : Type where
  routeBasePath : Option String := none
  openapiPath : Option String := none
  apiLayoutComponent : Option String := none
  apiItemComponent : Option String := none
  remarkPlugins : Option (List RemarkEntry) := none
  rehypePlugins : Option (List RemarkEntry) := none
  admonitions : Option (Option AdmonCfg) := none
  sidebarLabel : Option String := none
  pageId : Option String := none
  deriving DecidableEq, Repr

/-- The empty `opts` object: the user supplies no options. -/
def PartialOptions.empty : PartialOptions := {}

/-- index.ts lines 23-33: `DEFAULT_OPTIONS`. -/
def DEFAULT_OPTIONS : PluginOptions :=
  { routeBasePath := "api"
    openapiPath := ""
    apiLayoutComponent := "@theme/ApiPage"
    apiItemComponent := "@theme/ApiItem"
    remarkPlugins := []
    rehypePlugins := []
    admonitions := some []
    sidebarLabel := "summary"
    pageId := "summary" }

/-- index.ts line 41: `const options = { ...DEFAULT_OPTIONS, ...opts }` —
field-wise, a key present in `opts` overrides the default. -/
def mergeOptions (opts : PartialOptions) : PluginOptions :=
  { routeBasePath := opts.routeBasePath.getD DEFAULT_OPTIONS.routeBasePath
    openapiPath := opts.openapiPath.getD DEFAULT_OPTIONS.openapiPath
    apiLayoutComponent := opts.apiLayoutComponent.getD DEFAULT_OPTIONS.apiLayoutComponent
    apiItemComponent := opts.apiItemComponent.getD DEFAULT_OPTIONS.apiItemComponent
    remarkPlugins := opts.remarkPlugins.getD DEFAULT_OPTIONS.remarkPlugins
    rehypePlugins := opts.rehypePlugins.getD DEFAULT_OPTIONS.rehypePlugins
    admonitions := opts.admonitions.getD DEFAULT_OPTIONS.admonitions
    sidebarLabel := opts.sidebarLabel.getD DEFAULT_OPTIONS.sidebarLabel
    pageId := opts.pageId.getD DEFAULT_OPTIONS.pageId }

/-- index.ts lines 45-49: after the merge, when `options.admonitions` is
truthy the plugin reassigns
`options.remarkPlugins = options.remarkPlugins.concat([[admonitions, options.admonitions]])`.
`setupOptions` is the options record as it stands after this setup step. -/
def setupOptions (opts : PartialOptions) : PluginOptions :=
  let options := mergeOptions opts
  match options.admonitions with
  | some cfg =>
      { options with remarkPlugins :=
          options.remarkPlugins ++ [RemarkEntry.admonitionsEntry cfg] }
  | none => options

/-- index.ts lines 42-43. -/
def homePageDocsRoutePath (options : PluginOptions) : String :=
  if options.routeBasePath == "" then "/" else options.routeBasePath

/-- The resolved stylesheet `require.resolve("remark-admonitions/styles/infima.css")`. -/
def infimaCss : String := "remark-admonitions/styles/infima.css"

/-- index.ts lines 66-74: `getClientModules` pushes the admonitions stylesheet
exactly when `options.admonitions` is truthy. -/
def getClientModules (options : PluginOptions) : List String :=
  if options.admonitions.isSome then [infimaCss] else []

/-- An operation-level entry produced by the external OpenAPI loader
(types.ts `ApiItem` as consumed by index.ts). -/
structure ApiItem : Type where
  summary : String
  permalink : String
  hashId : String
  description : String
  deprecated : Bool
  deriving DecidableEq, Repr

/-- Dynamic field access `item[options.sidebarLabel]` on the fields index.ts
may select. -/
def ApiItem.getField (item : ApiItem) (key : String) : String :=
  if key == "summary" then item.summary
  else if key == "permalink" then item.permalink
  else if key == "hashId" then item.hashId
  else if key == "description" then item.description
  else ""

/-- A named category of items (types.ts `ApiSection`). -/
structure ApiSection : Type where
  title : String
  items : List ApiItem
  deriving DecidableEq, Repr

/-- types.ts `LoadedContent`: the wrapper `{ openapiData }` returned by
`loadContent`. -/
structure LoadedContent : Type where
  openapiData : List ApiSection
  deriving DecidableEq, Repr

/-- index.ts lines 76-91: `loadContent`.  The filesystem is a predicate
`fsExists`; the external parser `loadOpenapi` is passed in as a function of
the same arguments the source gives it.  `!openapiPath` is the JS falsiness of
a string: true exactly on `""`. -/
def loadContent (fsExists : String → Bool)
    (loadOpenapi : String → String → String → PluginOptions → List ApiSection)
    (baseUrl : String) (options : PluginOptions) : Option LoadedContent :=
  let routeBasePath := options.routeBasePath
  let openapiPath := options.openapiPath
  if openapiPath == "" || !fsExists openapiPath then
    none
  else
    some { openapiData := loadOpenapi openapiPath baseUrl routeBasePath options }

/-- Models the opaque content-hash `docuHash` from @docusaurus/utils used only
to build generated file names; no claim depends on its value, so it is taken
to be the identity (an injective stand-in for the hash). -/
def docuHash (s : String) : String := s

/-- Collapses runs of consecutive slashes to a single slash. -/
def collapseSlashes : List Char → List Char
  | [] => []
  | [c] => [c]
  | c1 :: c2 :: rest =>
      if c1 == '/' && c2 == '/' then collapseSlashes (c2 :: rest)
      else c1 :: collapseSlashes (c2 :: rest)

/-- Models `normalizeUrl` from @docusaurus/utils: joins URL parts with a
single slash between them.  Only its use in index.ts matters here
(`normalizeUrl([baseUrl, routeBasePath])` and `normalizeUrl([apiBaseRoute, ":route"])`). -/
def normalizeUrl (parts : List String) : String :=
  String.mk (collapseSlashes (String.intercalate "/" parts).toList)

/-- Models `JSON.stringify(item)` for an `ApiItem` (index.ts line 124): a JSON
object listing the item's fields. -/
def jsonStringifyItem (item : ApiItem) : String :=
  "\x7b\x22summary\x22:\x22" ++ item.summary ++
    "\x22,\x22permalink\x22:\x22" ++ item.permalink ++
    "\x22,\x22hashId\x22:\x22" ++ item.hashId ++
    "\x22,\x22description\x22:\x22" ++ item.description ++
    "\x22,\x22deprecated\x22:" ++ (if item.deprecated then "true" else "false") ++
    "\x7d"

/-- A sidebar link entry (index.ts lines 107-114). -/
structure SidebarItem : Type where
  href : String
  label : String
  type : String
  deprecated : Bool
  deriving DecidableEq, Repr

/-- A sidebar category (index.ts lines 102-116). -/
structure SidebarCategory : Type where
  collapsed : Bool
  type : String
  label : String
  items : List SidebarItem
  deriving DecidableEq, Repr

/-- The `modules` field of a produced route: item routes carry the JSON data
path and the `{ __import: true, path: markdown }` content reference (index.ts
lines 135-141); the aggregate route carries `docsMetadata` (lines 182-184);
host routes seen by `routesLoaded` may carry none. -/
inductive RouteModules : Type where
  | itemModules (openapi : String) (contentImport : Bool) (contentPath : String)
  | docsMetadata (path : String)
  | noModules

/-- A `RouteConfig` as produced and post-processed by the plugin: path,
component, the `exact` flag (named `exactFlag` here), nested routes and
modules. -/
inductive RouteConfig : Type where
  | mk (path : String) (component : String) (exactFlag : Bool)
      (routes : List RouteConfig) (modules : RouteModules)

def RouteConfig.path : RouteConfig → String
  | .mk p _ _ _ _ => p

def RouteConfig.component : RouteConfig → String
  | .mk _ c _ _ _ => c

def RouteConfig.exactFlag : RouteConfig → Bool
  | .mk _ _ e _ _ => e

def RouteConfig.routes : RouteConfig → List RouteConfig
  | .mk _ _ _ rs _ => rs

def RouteConfig.modules : RouteConfig → RouteModules
  | .mk _ _ _ _ m => m

/-- JS object assignment `acc[key] = value` on an insertion-ordered object
modelled as an association list: overwrite the existing key or append. -/
def jsObjSet (obj : List (String × String)) (key value : String) :
    List (String × String) :=
  if obj.any (fun e => e.1 == key) then
    obj.map (fun e => if e.1 == key then (key, value) else e)
  else obj ++ [(key, value)]

/-- The page id `site-${routeBasePath}-${item.hashId}` (index.ts line 121). -/
def pageIdOf (options : PluginOptions) (item : ApiItem) : String :=
  "site-" ++ options.routeBasePath ++ "-" ++ item.hashId

/-- The per-item body of the `promises` map (index.ts lines 120-143): two
`createData` calls — the JSON blob of the item and its raw description — and
the item's route descriptor referencing the two returned paths.  `createData`
is modelled as returning the file name it was given. -/
def itemEmit (options : PluginOptions) (item : ApiItem) :
    (List (String × String)) × RouteConfig :=
  let pageId := pageIdOf options item
  let openapiDataPath := docuHash pageId ++ ".json"
  let markdown := docuHash pageId ++ "-description.md"
  ( [ (docuHash pageId ++ ".json", jsonStringifyItem item),
      (docuHash pageId ++ "-description.md", item.description) ],
    RouteConfig.mk item.permalink options.apiItemComponent true []
      (RouteModules.itemModules openapiDataPath true markdown) )

/-- Models the aggregate metadata JSON of index.ts lines 165-174
(`{ docsSidebars: { sidebar }, permalinkToSidebar }`), at the level of detail
the claims need: a string determined by the sidebar and the lookup. -/
def jsonStringifyMeta (sidebar : List SidebarCategory)
    (permalinkToSidebar : List (String × String)) : String :=
  "\x7b\x22docsSidebars\x22:\x7b\x22sidebar\x22:[" ++
    String.intercalate "," (sidebar.map (fun c => "\x22" ++ c.label ++ "\x22")) ++
    "]\x7d,\x22permalinkToSidebar\x22:\x7b" ++
    String.intercalate ","
      (permalinkToSidebar.map (fun p => "\x22" ++ p.1 ++ "\x22:\x22" ++ p.2 ++ "\x22")) ++
    "\x7d\x7d"

/-- The observable effects of one `contentLoaded` run: the sidebar and
permalink lookup it builds, the item routes, and the `createData` /
`addRoute` calls it issues (in program order; the per-item `createData`
pairs are awaited concurrently, listed here in item order). -/
structure ContentLoadedResult : Type where
  sidebar : List SidebarCategory
  routes : List RouteConfig
  permalinkToSidebar : List (String × String)
  createDataCalls : List (String × String)
  addRouteCalls : List RouteConfig

/-- The result of a `contentLoaded` run that registers nothing. -/
def emptyResult : ContentLoadedResult :=
  { sidebar := [], routes := [], permalinkToSidebar := [],
    createDataCalls := [], addRouteCalls := [] }

/-- index.ts lines 93-188: `contentLoaded`.  Guard: no-op when `content` is
null or `Object.keys(content.openapiData).length === 0` (the section array is
empty).  Otherwise build the sidebar, the per-item artifacts and routes, the
permalink lookup (a JS-object reduce keyed by route path), the aggregate
metadata artifact, and one `addRoute` call. -/
def contentLoaded (options : PluginOptions) (baseUrl : String)
    (content : Option LoadedContent) : ContentLoadedResult :=
  match content with
  | Option.none => emptyResult
  | Option.some c =>
    if c.openapiData.length == 0 then emptyResult
    else
      let openapiData := c.openapiData
      let sidebar := openapiData.map (fun category =>
        { collapsed := true
          type := "category"
          label := category.title
          items := category.items.map (fun item =>
            { href := item.permalink
              label := item.getField options.sidebarLabel
              type := "link"
              deprecated := item.deprecated }) })
      let perItem := (openapiData.map (fun s => s.items.map (itemEmit options))).flatten
      let routes := perItem.map Prod.snd
      let itemCreates := (perItem.map Prod.fst).flatten
      let permalinkToSidebar :=
        routes.foldl (fun acc r => jsObjSet acc r.path "sidebar") []
      let apiBaseRoute := normalizeUrl [baseUrl, options.routeBasePath]
      let basePath := if apiBaseRoute == "/" then "" else apiBaseRoute
      let metaName := docuHash (normalizeUrl [apiBaseRoute, ":route"]) ++ ".json"
      { sidebar := sidebar
        routes := routes
        permalinkToSidebar := permalinkToSidebar
        createDataCalls :=
          itemCreates ++ [(metaName, jsonStringifyMeta sidebar permalinkToSidebar)]
        addRouteCalls :=
          [RouteConfig.mk basePath options.apiLayoutComponent false routes
            (RouteModules.docsMetadata metaName)] }

/-- JS `Array.prototype.findIndex` with a running index: the index of the
first element satisfying `p`, or `-1`. -/
def jsFindIndexFrom (p : α → Bool) (i : Nat) : List α → Int
  | [] => -1
  | x :: xs => if p x then (i : Int) else jsFindIndexFrom p (i + 1) xs

/-- JS `routes.findIndex(p)`. -/
def jsFindIndex (p : α → Bool) (l : List α) : Int :=
  jsFindIndexFrom p 0 l

/-- JS `delete arr[i]` on an array whose slots are `Option`-valued: a
negative index deletes nothing; an in-range index leaves an `undefined` hole
(`none`) without changing the length; an out-of-range index changes nothing
(as `List.set` is the identity out of range). -/
def jsDelete (l : List (Option α)) (i : Int) : List (Option α) :=
  if i < 0 then l else l.set i.toNat none

/-- index.ts lines 190-205: `routesLoaded`.  The input array of defined
routes becomes an array with `Option` slots so that the `delete` hole is
observable. -/
def routesLoaded (options : PluginOptions) (routes : List RouteConfig) :
    List (Option RouteConfig) :=
  let homeDocsRoutes :=
    routes.filter (fun r => r.path == homePageDocsRoutePath options)
  if homeDocsRoutes.length > 1 then
    jsDelete (routes.map some)
      (jsFindIndex
        (fun r =>
          r.component == options.apiLayoutComponent &&
            r.path == homePageDocsRoutePath options)
        routes)
  else routes.map some

/-- The routes that remain defined (non-hole slots) after `routesLoaded`. -/
def survivors (l : List (Option RouteConfig)) : List RouteConfig :=
  l.filterMap id

/-- Specification of `findIndex`-then-`delete` used in the proofs: replace the
first element satisfying `p` by a hole, keep everything else defined. -/
def deleteFirstHole (p : α → Bool) : List α → List (Option α)
  | [] => []
  | x :: xs =>
      if p x then none :: xs.map some else some x :: deleteFirstHole p xs

/-- All items of the loaded sections in order, as flattened by the source's
`.map(...).flat()`. -/
def allItems (sections : List ApiSection) : List ApiItem :=
  (sections.map ApiSection.items).flatten

/-! ### Concrete sample data used by witnesses -/

/-- A host route list entry: the plugin's aggregate route at the default home
path `"api"` with the default layout component. -/
def aggRoute : RouteConfig :=
  RouteConfig.mk "api" "@theme/ApiPage" false [] RouteModules.noModules

/-- A competing docs home-page route at the same path with another component. -/
def otherHomeRoute : RouteConfig :=
  RouteConfig.mk "api" "@theme/DocPage" false [] RouteModules.noModules

/-- A second competing route at the home path, also not the layout component. -/
def otherHomeRoute2 : RouteConfig :=
  RouteConfig.mk "api" "@theme/BlogPage" false [] RouteModules.noModules

/-- A route elsewhere. -/
def elsewhereRoute : RouteConfig :=
  RouteConfig.mk "/other" "@theme/Other" true [] RouteModules.noModules

/-- A sample item for witnesses. -/
def sampleItem : ApiItem :=
  { summary := "List pets"
    permalink := "/api/list-pets"
    hashId := "listPets"
    description := "Returns all pets."
    deprecated := false }

/-- A second sample item with a distinct permalink. -/
def sampleItem2 : ApiItem :=
  { summary := "Create pet"
    permalink := "/api/create-pet"
    hashId := "createPet"
    description := "Creates a pet."
    deprecated := true }

/-- A sample item sharing `sampleItem`'s permalink (distinct hash id). -/
def sampleItemDup : ApiItem :=
  { summary := "List pets again"
    permalink := "/api/list-pets"
    hashId := "listPetsDup"
    description := "Duplicate permalink."
    deprecated := false }

/-- A sample section holding both distinct items. -/
def sampleSection : ApiSection :=
  { title := "pets", items := [sampleItem, sampleItem2] }

/-- A sample section with two items sharing one permalink. -/
def dupSection : ApiSection :=
  { title := "pets", items := [sampleItem, sampleItemDup] }

/-- A one-item sample section. -/
def sampleSection2 : ApiSection :=
  { title := "store", items := [sampleItem2] }

/-! ### Lemmas about `jsFindIndex`, `jsDelete` and `deleteFirstHole` -/

theorem jsFindIndexFrom_neg_one_of_forall {α : Type _} {p : α → Bool}
    (l : List α) : ∀ i : Nat, (∀ a ∈ l, p a = false) →
      jsFindIndexFrom p i l = -1 := by
  induction l with
  | nil => intro i _; rfl
  | cons x xs ih =>
      intro i h
      have hx := h x (List.mem_cons_self x xs)
      simp only [jsFindIndexFrom, hx, Bool.false_eq_true, if_false]
      exact ih (i + 1) (fun a ha => h a (List.mem_cons_of_mem x ha))

theorem forall_of_jsFindIndexFrom_neg_one {α : Type _} {p : α → Bool}
    (l : List α) : ∀ i : Nat, jsFindIndexFrom p i l = -1 →
      ∀ a ∈ l, p a = false := by
  induction l with
  | nil => simp
  | cons x xs ih =>
      intro i h a ha
      cases hx : p x with
      | true =>
          simp only [jsFindIndexFrom, hx, if_true] at h
          omega
      | false =>
          simp only [jsFindIndexFrom, hx, Bool.false_eq_true, if_false] at h
          rcases List.mem_cons.mp ha with rfl | ha'
          · exact hx
          · exact ih (i + 1) h a ha'

theorem jsFindIndexFrom_bounds {α : Type _} {p : α → Bool} (l : List α) :
    ∀ i : Nat, jsFindIndexFrom p i l = -1 ∨
      ((i : Int) ≤ jsFindIndexFrom p i l ∧
        jsFindIndexFrom p i l < (i : Int) + l.length) := by
  induction l with
  | nil => intro i; left; rfl
  | cons x xs ih =>
      intro i
      cases hx : p x with
      | true =>
          right
          simp only [jsFindIndexFrom, hx, if_true, List.length_cons]
          constructor
          · omega
          · push_cast; omega
      | false =>
          rcases ih (i + 1) with h | h
          · left
            simpa only [jsFindIndexFrom, hx, Bool.false_eq_true, if_false] using h
          · right
            have h1 := h.1
            have h2 := h.2
            simp only [jsFindIndexFrom, hx, Bool.false_eq_true, if_false,
              List.length_cons]
            push_cast at h1 h2 ⊢
            omega

theorem jsFindIndexFrom_succ {α : Type _} {p : α → Bool} (l : List α) :
    ∀ i : Nat, jsFindIndexFrom p (i + 1) l =
      if jsFindIndexFrom p i l = -1 then -1 else jsFindIndexFrom p i l + 1 := by
  induction l with
  | nil => intro i; simp [jsFindIndexFrom]
  | cons x xs ih =>
      intro i
      cases hx : p x with
      | true =>
          have hne : ((i : Int)) ≠ -1 := by omega
          simp only [jsFindIndexFrom, hx, if_true, hne, if_false]
          push_cast
          ring
      | false =>
          simp only [jsFindIndexFrom, hx, Bool.false_eq_true, if_false]
          exact ih (i + 1)

theorem deleteFirstHole_eq_of_forall {α : Type _} {p : α → Bool}
    (l : List α) (h : ∀ a ∈ l, p a = false) :
    deleteFirstHole p l = l.map some := by
  induction l with
  | nil => rfl
  | cons x xs ih =>
      have hx := h x (List.mem_cons_self x xs)
      simp only [deleteFirstHole, hx, Bool.false_eq_true, if_false, List.map_cons]
      rw [ih (fun a ha => h a (List.mem_cons_of_mem x ha))]

theorem jsDelete_map_some_jsFindIndex {α : Type _} {p : α → Bool} (l : List α) :
    jsDelete (l.map some) (jsFindIndex p l) = deleteFirstHole p l := by
  induction l with
  | nil => rfl
  | cons x xs ih =>
      cases hx : p x with
      | true =>
          simp [jsFindIndex, jsFindIndexFrom, hx, jsDelete, deleteFirstHole]
      | false =>
          have hsucc := jsFindIndexFrom_succ (p := p) xs 0
          have hfi : jsFindIndex p (x :: xs) =
              if jsFindIndexFrom p 0 xs = -1 then -1
              else jsFindIndexFrom p 0 xs + 1 := by
            simp only [jsFindIndex, jsFindIndexFrom, hx, Bool.false_eq_true,
              if_false]
            exact hsucc
          by_cases h0 : jsFindIndexFrom p 0 xs = -1
          · have hall := forall_of_jsFindIndexFrom_neg_one xs 0 h0
            have hdel := deleteFirstHole_eq_of_forall xs hall
            rw [hfi, if_pos h0]
            simp [jsDelete, deleteFirstHole, hx, hdel]
          · rcases jsFindIndexFrom_bounds (p := p) xs 0 with hb | hb
            · exact absurd hb h0
            · have hv0 : (0 : Int) ≤ jsFindIndexFrom p 0 xs := by
                have := hb.1; push_cast at this; omega
              rw [hfi, if_neg h0]
              have hne : ¬ (jsFindIndexFrom p 0 xs + 1 < 0) := by omega
              have htn : (jsFindIndexFrom p 0 xs + 1).toNat =
                  (jsFindIndexFrom p 0 xs).toNat + 1 := by omega
              simp only [jsDelete, hne, if_false, List.map_cons, htn,
                List.set_cons_succ, deleteFirstHole, hx, Bool.false_eq_true]
              have hne' : ¬ (jsFindIndexFrom p 0 xs < 0) := by omega
              have := ih
              rw [jsFindIndex, jsDelete, if_neg hne'] at this
              rw [this]

theorem length_filter_filterMap_deleteFirstHole {α : Type _} {p q : α → Bool}
    (himp : ∀ a, p a = true → q a = true) :
    ∀ l : List α, (∃ a ∈ l, p a = true) →
      (((deleteFirstHole p l).filterMap id).filter q).length + 1 =
        (l.filter q).length := by
  intro l
  induction l with
  | nil => intro hex; simp at hex
  | cons x xs ih =>
      intro hex
      cases hx : p x with
      | true =>
          have hqx := himp x hx
          simp [deleteFirstHole, hx, List.filter_cons, hqx]
      | false =>
          have hex' : ∃ a ∈ xs, p a = true := by
            rcases hex with ⟨a, ha, hpa⟩
            rcases List.mem_cons.mp ha with rfl | h'
            · rw [hx] at hpa; cases hpa
            · exact ⟨a, h', hpa⟩
          have hxs := ih hex'
          simp only [deleteFirstHole, hx, Bool.false_eq_true, if_false,
            List.filterMap_cons, id_eq, List.filter_cons]
          cases hqx : q x <;> simp <;> omega

/-! ### C1, C9, C10: `routesLoaded` -/

/-- C1: after `routesLoaded` post-processing, for every route list in which
exactly two routes have the home base path and one of them is this plugin's
aggregate route (its component is the configured layout component), exactly
one route at that path survives; and for every route list in which exactly
one route has that path, the list is unchanged. -/
theorem routesLoaded_home_collision_resolved (o : PluginOptions)
    (routes : List RouteConfig) :
    ((routes.filter (fun r => r.path == homePageDocsRoutePath o)).length = 2 →
      (∃ r ∈ routes,
        (r.component == o.apiLayoutComponent &&
          r.path == homePageDocsRoutePath o) = true) →
      ((survivors (routesLoaded o routes)).filter
          (fun r => r.path == homePageDocsRoutePath o)).length = 1) ∧
    ((routes.filter (fun r => r.path == homePageDocsRoutePath o)).length = 1 →
      routesLoaded o routes = routes.map some) := by
  constructor
  · intro h2 hex
    have hgt :
        (routes.filter (fun r => r.path == homePageDocsRoutePath o)).length > 1 := by
      omega
    have hrl : routesLoaded o routes =
        deleteFirstHole
          (fun r =>
            r.component == o.apiLayoutComponent &&
              r.path == homePageDocsRoutePath o) routes := by
      simp only [routesLoaded]
      rw [if_pos hgt]
      exact jsDelete_map_some_jsFindIndex routes
    have hlen := length_filter_filterMap_deleteFirstHole
      (fun a ha => (((Bool.and_eq_true _ _) ▸ ha :
        _ = true ∧ _ = true)).2) routes hex
    rw [hrl]
    unfold survivors
    omega
  · intro h1
    have hle :
        ¬ ((routes.filter (fun r => r.path == homePageDocsRoutePath o)).length > 1) := by
      omega
    simp only [routesLoaded]
    rw [if_neg hle]

/-- Witness for C1 at concrete inputs: a two-route collision containing the
aggregate route resolves to one survivor, and a list with a single home route
is unchanged. -/
theorem routesLoaded_home_collision_resolved_witness :
    ((survivors (routesLoaded DEFAULT_OPTIONS [otherHomeRoute, aggRoute])).filter
        (fun r => r.path == homePageDocsRoutePath DEFAULT_OPTIONS)).length = 1 ∧
    routesLoaded DEFAULT_OPTIONS [aggRoute, elsewhereRoute] =
      ([aggRoute, elsewhereRoute] : List RouteConfig).map some := by
  constructor
  · exact (routesLoaded_home_collision_resolved DEFAULT_OPTIONS
      [otherHomeRoute, aggRoute]).1 (by rfl)
      ⟨aggRoute, List.mem_cons_of_mem _ (List.mem_cons_self _ _), by rfl⟩
  · exact (routesLoaded_home_collision_resolved DEFAULT_OPTIONS
      [aggRoute, elsewhereRoute]).2 (by rfl)

/-- C9: when `routesLoaded` removes a colliding route (the collision branch
fires and `findIndex` returns a nonnegative index `i`), the result keeps the
array length, slot `i` becomes an `undefined` hole, and every other slot is
the unchanged original route. -/
theorem routesLoaded_delete_leaves_hole (o : PluginOptions)
    (routes : List RouteConfig) (i : Nat)
    (hmany :
      (routes.filter (fun r => r.path == homePageDocsRoutePath o)).length > 1)
    (hfound : jsFindIndex
      (fun r =>
        r.component == o.apiLayoutComponent &&
          r.path == homePageDocsRoutePath o) routes = (i : Int)) :
    i < routes.length ∧
    (routesLoaded o routes).length = routes.length ∧
    (routesLoaded o routes)[i]? = some (none : Option RouteConfig) ∧
    ∀ j : Nat, j ≠ i →
      (routesLoaded o routes)[j]? = (routes[j]?).map some := by
  have hf' : jsFindIndexFrom
      (fun r =>
        r.component == o.apiLayoutComponent &&
          r.path == homePageDocsRoutePath o) 0 routes = (i : Int) := hfound
  have hilt : i < routes.length := by
    rcases jsFindIndexFrom_bounds
        (p := fun r =>
          r.component == o.apiLayoutComponent &&
            r.path == homePageDocsRoutePath o) routes 0 with h | h
    · rw [hf'] at h; omega
    · rw [hf'] at h
      have h2 := h.2
      push_cast at h2
      omega
  have hrl : routesLoaded o routes = (routes.map some).set i none := by
    simp only [routesLoaded]
    rw [if_pos hmany, hfound]
    simp [jsDelete]
  refine ⟨hilt, ?_, ?_, ?_⟩
  · rw [hrl]; simp
  · rw [hrl]
    exact List.getElem?_set_self (by simpa using hilt)
  · intro j hj
    rw [hrl, List.getElem?_set_ne (Ne.symm hj), List.getElem?_map]

/-- Witness for C9: deleting the aggregate route at index 1 of a two-route
collision list. -/
theorem routesLoaded_delete_leaves_hole_witness :
    1 < ([otherHomeRoute, aggRoute] : List RouteConfig).length ∧
    (routesLoaded DEFAULT_OPTIONS [otherHomeRoute, aggRoute]).length =
      ([otherHomeRoute, aggRoute] : List RouteConfig).length ∧
    (routesLoaded DEFAULT_OPTIONS [otherHomeRoute, aggRoute])[1]? =
      some (none : Option RouteConfig) ∧
    (routesLoaded DEFAULT_OPTIONS [otherHomeRoute, aggRoute])[0]? =
      (([otherHomeRoute, aggRoute] : List RouteConfig)[0]?).map some := by
  refine ⟨?_, ?_, ?_, ?_⟩
  · exact (routesLoaded_delete_leaves_hole DEFAULT_OPTIONS
      [otherHomeRoute, aggRoute] 1 (by decide) (by rfl)).1
  · exact (routesLoaded_delete_leaves_hole DEFAULT_OPTIONS
      [otherHomeRoute, aggRoute] 1 (by decide) (by rfl)).2.1
  · exact (routesLoaded_delete_leaves_hole DEFAULT_OPTIONS
      [otherHomeRoute, aggRoute] 1 (by decide) (by rfl)).2.2.1
  · exact (routesLoaded_delete_leaves_hole DEFAULT_OPTIONS
      [otherHomeRoute, aggRoute] 1 (by decide) (by rfl)).2.2.2 0 (by decide)

/-- C10: if more than one route occupies the home base path but none of them
has both that path and the configured layout component, `routesLoaded`
leaves the route list completely unchanged (`findIndex` returns `-1` and
`delete` at `-1` removes nothing). -/
theorem routesLoaded_no_layout_match_unchanged (o : PluginOptions)
    (routes : List RouteConfig)
    (hmany :
      (routes.filter (fun r => r.path == homePageDocsRoutePath o)).length > 1)
    (hnone : ∀ r ∈ routes,
      (r.component == o.apiLayoutComponent &&
        r.path == homePageDocsRoutePath o) = false) :
    routesLoaded o routes = routes.map some := by
  simp only [routesLoaded, jsFindIndex]
  rw [if_pos hmany, jsFindIndexFrom_neg_one_of_forall routes 0 hnone]
  simp [jsDelete]

/-- Witness for C10: two colliding home routes, neither with the layout
component; the list is unchanged. -/
theorem routesLoaded_no_layout_match_unchanged_witness :
    routesLoaded DEFAULT_OPTIONS [otherHomeRoute, otherHomeRoute2] =
      ([otherHomeRoute, otherHomeRoute2] : List RouteConfig).map some :=
  routesLoaded_no_layout_match_unchanged DEFAULT_OPTIONS
    [otherHomeRoute, otherHomeRoute2] (by decide) (by decide)

/-! ### C2: option-record immutability after the merge -/

/-- C2 counterexample: with no user options (`opts = {}`) the default
`admonitions = {}` is truthy, so the setup step reassigns `remarkPlugins`
after the spread merge completes — the record is not immutable after the
merge. -/
theorem setupOptions_mutates_remarkPlugins :
    (setupOptions PartialOptions.empty).remarkPlugins ≠
      (mergeOptions PartialOptions.empty).remarkPlugins := by
  decide

/-- C2 amended: after the spread merge, the only subsequent modification to
the options record is the admonitions setup step: when the merged
`admonitions` is truthy, `remarkPlugins` is extended by appending the
admonitions entry and every other field is unchanged; when it is falsy, no
field at all is modified. -/
theorem setupOptions_frame (opts : PartialOptions) :
    (setupOptions opts).routeBasePath = (mergeOptions opts).routeBasePath ∧
    (setupOptions opts).openapiPath = (mergeOptions opts).openapiPath ∧
    (setupOptions opts).apiLayoutComponent =
      (mergeOptions opts).apiLayoutComponent ∧
    (setupOptions opts).apiItemComponent = (mergeOptions opts).apiItemComponent ∧
    (setupOptions opts).rehypePlugins = (mergeOptions opts).rehypePlugins ∧
    (setupOptions opts).admonitions = (mergeOptions opts).admonitions ∧
    (setupOptions opts).sidebarLabel = (mergeOptions opts).sidebarLabel ∧
    (setupOptions opts).pageId = (mergeOptions opts).pageId ∧
    ((mergeOptions opts).admonitions = none →
      setupOptions opts = mergeOptions opts) ∧
    (∀ cfg, (mergeOptions opts).admonitions = some cfg →
      (setupOptions opts).remarkPlugins =
        (mergeOptions opts).remarkPlugins ++ [RemarkEntry.admonitionsEntry cfg]) := by
  unfold setupOptions
  cases h : (mergeOptions opts).admonitions <;> simp [h]

/-- Witness for C2's amended theorem at `opts = {}`: the default truthy
admonitions config appends exactly the admonitions entry. -/
theorem setupOptions_frame_witness :
    (setupOptions PartialOptions.empty).remarkPlugins =
      (mergeOptions PartialOptions.empty).remarkPlugins ++
        [RemarkEntry.admonitionsEntry []] :=
  (setupOptions_frame PartialOptions.empty).2.2.2.2.2.2.2.2.2 [] (by rfl)

/-! ### C5: `loadContent` -/

/-- C5: `loadContent` returns `null` exactly when the configured
`openapiPath` is unset (empty string) or does not resolve to an existing
file; otherwise it returns the external parser's output wrapped in the
`{ openapiData }` object. -/
theorem loadContent_null_or_wrap (fsExists : String → Bool)
    (loadOpenapi : String → String → String → PluginOptions → List ApiSection)
    (baseUrl : String) (options : PluginOptions) :
    (loadContent fsExists loadOpenapi baseUrl options = none ↔
      options.openapiPath = "" ∨ fsExists options.openapiPath = false) ∧
    (options.openapiPath ≠ "" → fsExists options.openapiPath = true →
      loadContent fsExists loadOpenapi baseUrl options =
        some { openapiData :=
          loadOpenapi options.openapiPath baseUrl options.routeBasePath options }) := by
  constructor
  · unfold loadContent
    by_cases h1 : options.openapiPath = ""
    · simp [h1]
    · cases h2 : fsExists options.openapiPath <;> simp [h1, h2]
  · intro h1 h2
    unfold loadContent
    simp [h1, h2]

/-- Witness for C5: a missing file yields `null`; an existing file yields the
parser output wrapped. -/
theorem loadContent_null_or_wrap_witness :
    loadContent (fun s => s == "petstore.yaml") (fun _ _ _ _ => [sampleSection])
      "/" { DEFAULT_OPTIONS with openapiPath := "missing.yaml" } = none ∧
    loadContent (fun s => s == "petstore.yaml") (fun _ _ _ _ => [sampleSection])
      "/" { DEFAULT_OPTIONS with openapiPath := "petstore.yaml" } =
      some { openapiData := [sampleSection] } := by
  constructor
  · exact (loadContent_null_or_wrap (fun s => s == "petstore.yaml")
      (fun _ _ _ _ => [sampleSection]) "/"
      { DEFAULT_OPTIONS with openapiPath := "missing.yaml" }).1.mpr
      (Or.inr (by decide))
  · exact (loadContent_null_or_wrap (fun s => s == "petstore.yaml")
      (fun _ _ _ _ => [sampleSection]) "/"
      { DEFAULT_OPTIONS with openapiPath := "petstore.yaml" }).2
      (by decide) (by decide)

/-! ### C6: `contentLoaded` no-op guard -/

/-- C6: `contentLoaded` issues no `createData` call and no `addRoute` call
when the content is null or the parsed result has zero sections. -/
theorem contentLoaded_noop (options : PluginOptions) (baseUrl : String)
    (content : Option LoadedContent)
    (h : content = none ∨ ∃ c, content = some c ∧ c.openapiData = []) :
    (contentLoaded options baseUrl content).createDataCalls = [] ∧
    (contentLoaded options baseUrl content).addRouteCalls = [] := by
  rcases h with rfl | ⟨c, rfl, hc⟩
  · exact ⟨rfl, rfl⟩
  · unfold contentLoaded
    simp [hc, emptyResult]

/-- Witness for C6 at null content and at a zero-section content. -/
theorem contentLoaded_noop_witness :
    ((contentLoaded DEFAULT_OPTIONS "/" none).createDataCalls = [] ∧
      (contentLoaded DEFAULT_OPTIONS "/" none).addRouteCalls = []) ∧
    ((contentLoaded DEFAULT_OPTIONS "/"
        (some { openapiData := [] })).createDataCalls = [] ∧
      (contentLoaded DEFAULT_OPTIONS "/"
        (some { openapiData := [] })).addRouteCalls = []) :=
  ⟨contentLoaded_noop DEFAULT_OPTIONS "/" none (Or.inl rfl),
    contentLoaded_noop DEFAULT_OPTIONS "/" (some { openapiData := [] })
      (Or.inr ⟨{ openapiData := [] }, rfl, rfl⟩)⟩

/-! ### C8: `getClientModules` -/

/-- C8: `getClientModules` returns the one-element list with the admonitions
stylesheet exactly when the admonitions option is truthy, and the empty list
otherwise; under the default configuration (admonitions defaults to the
truthy empty object) the stylesheet is included. -/
theorem getClientModules_admonitions (opts : PartialOptions) :
    (getClientModules (setupOptions opts) = [infimaCss] ↔
      (setupOptions opts).admonitions.isSome = true) ∧
    ((setupOptions opts).admonitions.isSome = false →
      getClientModules (setupOptions opts) = []) ∧
    getClientModules (setupOptions PartialOptions.empty) = [infimaCss] := by
  refine ⟨?_, ?_, ?_⟩
  · unfold getClientModules
    cases h : (setupOptions opts).admonitions.isSome <;> simp [h]
  · intro h
    unfold getClientModules
    simp [h]
  · rfl

/-- Witness for C8: a user-supplied falsy admonitions option yields no client
modules; the default configuration yields exactly the stylesheet. -/
theorem getClientModules_admonitions_witness :
    getClientModules
      (setupOptions { PartialOptions.empty with admonitions := some none }) = [] ∧
    getClientModules (setupOptions PartialOptions.empty) = [infimaCss] := by
  constructor
  · exact (getClientModules_admonitions
      { PartialOptions.empty with admonitions := some none }).2.1 (by rfl)
  · exact (getClientModules_admonitions PartialOptions.empty).2.2

/-! ### Lemmas about `contentLoaded`'s per-item structure -/

theorem perItem_eq (o : PluginOptions) (sections : List ApiSection) :
    (sections.map (fun s => s.items.map (itemEmit o))).flatten =
      (allItems sections).map (itemEmit o) := by
  unfold allItems
  rw [List.map_flatten, List.map_map]
  rfl

theorem length_eq_zero_beq_false {sections : List ApiSection}
    (h : sections ≠ []) : ((sections.length == 0) : Bool) = false := by
  have hlen : sections.length ≠ 0 := fun hz => h (List.length_eq_zero.mp hz)
  simpa using hlen

theorem contentLoaded_routes_eq (o : PluginOptions) (b : String)
    (sections : List ApiSection) (h : sections ≠ []) :
    (contentLoaded o b (some { openapiData := sections })).routes =
      (allItems sections).map (fun it => (itemEmit o it).2) := by
  unfold contentLoaded
  simp only [length_eq_zero_beq_false h, Bool.false_eq_true, if_false,
    perItem_eq, List.map_map]
  rfl

theorem contentLoaded_sidebar_items_eq (o : PluginOptions) (b : String)
    (sections : List ApiSection) (h : sections ≠ []) :
    (contentLoaded o b (some { openapiData := sections })).sidebar.map
        (fun cat => cat.items.length) =
      sections.map (fun s => s.items.length) := by
  unfold contentLoaded
  simp only [length_eq_zero_beq_false h, Bool.false_eq_true, if_false,
    List.map_map]
  simp [Function.comp]

theorem contentLoaded_addRoute_eq (o : PluginOptions) (b : String)
    (sections : List ApiSection) (h : sections ≠ []) :
    (contentLoaded o b (some { openapiData := sections })).addRouteCalls.map
        RouteConfig.routes =
      [(contentLoaded o b (some { openapiData := sections })).routes] := by
  unfold contentLoaded
  simp only [length_eq_zero_beq_false h, Bool.false_eq_true, if_false,
    List.map_cons, List.map_nil]
  rfl

theorem contentLoaded_permalink_eq (o : PluginOptions) (b : String)
    (sections : List ApiSection) (h : sections ≠ []) :
    (contentLoaded o b (some { openapiData := sections })).permalinkToSidebar =
      ((allItems sections).map (fun it => (itemEmit o it).2)).foldl
        (fun acc r => jsObjSet acc r.path "sidebar") [] := by
  unfold contentLoaded
  simp only [length_eq_zero_beq_false h, Bool.false_eq_true, if_false,
    perItem_eq, List.map_map]
  rfl

theorem contentLoaded_creates_eq (o : PluginOptions) (b : String)
    (sections : List ApiSection) (h : sections ≠ []) :
    ∃ meta : String × String,
      (contentLoaded o b (some { openapiData := sections })).createDataCalls =
        ((allItems sections).map (fun it => (itemEmit o it).1)).flatten ++
          [meta] := by
  unfold contentLoaded
  simp only [length_eq_zero_beq_false h, Bool.false_eq_true, if_false,
    perItem_eq, List.map_map]
  exact ⟨_, rfl⟩

/-! ### Lemmas about the `jsObjSet` fold -/

theorem jsObjSet_append_of_not_mem (acc : List (String × String)) (k v : String)
    (h : ∀ e ∈ acc, e.1 ≠ k) : jsObjSet acc k v = acc ++ [(k, v)] := by
  unfold jsObjSet
  have hany : acc.any (fun e => e.1 == k) = false := by
    rw [List.any_eq_false]
    intro e he
    simpa using h e he
  rw [hany]
  simp

theorem jsObjSet_values (acc : List (String × String)) (k v : String)
    (h : ∀ e ∈ acc, e.2 = v) : ∀ e ∈ jsObjSet acc k v, e.2 = v := by
  unfold jsObjSet
  by_cases hc : acc.any (fun e => e.1 == k) = true
  · rw [if_pos hc]
    intro e he
    rcases List.mem_map.mp he with ⟨e', he', rfl⟩
    by_cases h1 : (e'.1 == k) = true
    · simp [h1]
    · simp only [h1, Bool.false_eq_true, if_false]
      exact h e' he'
  · rw [if_neg hc]
    intro e he
    rcases List.mem_append.mp he with h1 | h1
    · exact h e h1
    · have : e = (k, v) := by simpa using h1
      rw [this]

theorem foldl_jsObjSet_values {β : Type _} (f : β → String) (v : String) :
    ∀ (l : List β) (acc : List (String × String)), (∀ e ∈ acc, e.2 = v) →
      ∀ e ∈ l.foldl (fun acc b => jsObjSet acc (f b) v) acc, e.2 = v := by
  intro l
  induction l with
  | nil => intro acc h; simpa using h
  | cons x xs ih =>
      intro acc h
      simp only [List.foldl_cons]
      exact ih _ (jsObjSet_values acc (f x) v h)

theorem foldl_jsObjSet_length {β : Type _} (f : β → String) (v : String) :
    ∀ (l : List β) (acc : List (String × String)), (l.map f).Nodup →
      (∀ b ∈ l, ∀ e ∈ acc, e.1 ≠ f b) →
      (l.foldl (fun acc b => jsObjSet acc (f b) v) acc).length =
        acc.length + l.length := by
  intro l
  induction l with
  | nil => intro acc _ _; simp
  | cons x xs ih =>
      intro acc hnd hdis
      have hstep : jsObjSet acc (f x) v = acc ++ [(f x, v)] :=
        jsObjSet_append_of_not_mem acc (f x) v
          (fun e he => hdis x (List.mem_cons_self x xs) e he)
      have hcons : (∀ y ∈ xs, ¬ f y = f x) ∧ (xs.map f).Nodup := by
        simpa using hnd
      have hdis' : ∀ b ∈ xs, ∀ e ∈ acc ++ [(f x, v)], e.1 ≠ f b := by
        intro b hb e he
        rcases List.mem_append.mp he with h1 | h1
        · exact hdis b (List.mem_cons_of_mem x hb) e h1
        · have he' : e = (f x, v) := by simpa using h1
          rw [he']
          intro hcontra
          exact hcons.1 b hb hcontra.symm
      have hrec := ih (acc ++ [(f x, v)]) hcons.2 hdis'
      rw [List.foldl_cons, hstep, hrec]
      simp [List.length_append]
      omega

theorem sum_map_two {β : Type _} (l : List β) :
    (l.map (fun _ => (2 : Nat))).sum = 2 * l.length := by
  induction l with
  | nil => rfl
  | cons x xs ih => simp [ih]; omega

/-! ### C3: route and sidebar counts -/

/-- C3: for loaded content with sections of item counts k₁..kₙ (n ≥ 1),
`contentLoaded` produces exactly Σkᵢ item routes, registers them through a
single `addRoute` call whose `routes` field holds exactly the item routes,
and the sidebar has exactly one category per section whose item counts match
k₁..kₙ in order. -/
theorem contentLoaded_counts (o : PluginOptions) (b : String)
    (sections : List ApiSection) (h : sections ≠ []) :
    (contentLoaded o b (some { openapiData := sections })).routes.length =
      (sections.map (fun s => s.items.length)).sum ∧
    (contentLoaded o b (some { openapiData := sections })).addRouteCalls.map
        RouteConfig.routes =
      [(contentLoaded o b (some { openapiData := sections })).routes] ∧
    (contentLoaded o b (some { openapiData := sections })).sidebar.length =
      sections.length ∧
    (contentLoaded o b (some { openapiData := sections })).sidebar.map
        (fun cat => cat.items.length) =
      sections.map (fun s => s.items.length) := by
  refine ⟨?_, contentLoaded_addRoute_eq o b sections h, ?_,
    contentLoaded_sidebar_items_eq o b sections h⟩
  · rw [contentLoaded_routes_eq o b sections h, List.length_map]
    unfold allItems
    rw [List.length_flatten, List.map_map]
    rfl
  · have hmap := contentLoaded_sidebar_items_eq o b sections h
    have hlen := congrArg List.length hmap
    simpa using hlen

/-- Witness for C3 on two sections with item counts 2 and 1. -/
theorem contentLoaded_counts_witness :
    (contentLoaded DEFAULT_OPTIONS "/"
        (some { openapiData := [sampleSection, sampleSection2] })).routes.length =
      (([sampleSection, sampleSection2] : List ApiSection).map
        (fun s => s.items.length)).sum ∧
    (contentLoaded DEFAULT_OPTIONS "/"
        (some { openapiData := [sampleSection, sampleSection2] })).addRouteCalls.map
        RouteConfig.routes =
      [(contentLoaded DEFAULT_OPTIONS "/"
          (some { openapiData := [sampleSection, sampleSection2] })).routes] ∧
    (contentLoaded DEFAULT_OPTIONS "/"
        (some { openapiData := [sampleSection, sampleSection2] })).sidebar.length =
      ([sampleSection, sampleSection2] : List ApiSection).length ∧
    (contentLoaded DEFAULT_OPTIONS "/"
        (some { openapiData := [sampleSection, sampleSection2] })).sidebar.map
        (fun cat => cat.items.length) =
      ([sampleSection, sampleSection2] : List ApiSection).map
        (fun s => s.items.length) :=
  contentLoaded_counts DEFAULT_OPTIONS "/" [sampleSection, sampleSection2]
    (by decide)

/-! ### C4: the permalink-to-sidebar lookup -/

/-- C4 counterexample: with two items sharing one permalink there are two item
routes but only one key in the lookup, so the number of keys does not equal
the number of item routes. -/
theorem permalinkToSidebar_key_collision :
    (contentLoaded DEFAULT_OPTIONS "/"
        (some { openapiData := [dupSection] })).routes.length = 2 ∧
    (contentLoaded DEFAULT_OPTIONS "/"
        (some { openapiData := [dupSection] })).permalinkToSidebar.length = 1 := by
  constructor <;> rfl

/-- C4 amended: every entry of the lookup has value "sidebar", and the lookup
has exactly one entry per item route provided the item permalinks are
pairwise distinct (duplicate permalinks collapse onto a single key). -/
theorem permalinkToSidebar_entries (o : PluginOptions) (b : String)
    (sections : List ApiSection)
    (hnodup : ((allItems sections).map ApiItem.permalink).Nodup) :
    (contentLoaded o b
        (some { openapiData := sections })).permalinkToSidebar.length =
      (contentLoaded o b (some { openapiData := sections })).routes.length ∧
    ∀ e ∈ (contentLoaded o b
        (some { openapiData := sections })).permalinkToSidebar,
      e.2 = "sidebar" := by
  by_cases h : sections = []
  · subst h
    refine ⟨rfl, ?_⟩
    intro e he
    simp [contentLoaded, emptyResult] at he
  · have hroutes := contentLoaded_routes_eq o b sections h
    have hperm := contentLoaded_permalink_eq o b sections h
    constructor
    · rw [hperm, hroutes]
      have hkeys : (((allItems sections).map
          (fun it => (itemEmit o it).2)).map RouteConfig.path).Nodup := by
        rw [List.map_map]
        exact hnodup
      have hlen := foldl_jsObjSet_length RouteConfig.path "sidebar"
        ((allItems sections).map (fun it => (itemEmit o it).2)) [] hkeys
        (by intro r hr e he; simp at he)
      simpa using hlen
    · intro e he
      rw [hperm] at he
      exact foldl_jsObjSet_values RouteConfig.path "sidebar" _ [] (by simp) e he

/-- Witness for C4's amended theorem: two items with distinct permalinks give
a lookup with one key per item route. -/
theorem permalinkToSidebar_entries_witness :
    (contentLoaded DEFAULT_OPTIONS "/"
        (some { openapiData := [sampleSection] })).permalinkToSidebar.length =
      (contentLoaded DEFAULT_OPTIONS "/"
        (some { openapiData := [sampleSection] })).routes.length :=
  (permalinkToSidebar_entries DEFAULT_OPTIONS "/" [sampleSection] (by decide)).1

/-! ### C7: per-item artifacts and route -/

/-- C7: for every item of every section, `contentLoaded` creates a JSON
artifact containing the serialization of the full item record and a text
artifact containing exactly the item's description, the item's route has the
item's permalink as its path and references both artifact paths in its
modules, and the total number of `createData` calls is two per item plus the
single aggregate metadata artifact. -/
theorem contentLoaded_item_artifacts (o : PluginOptions) (b : String)
    (sections : List ApiSection) (item : ApiItem)
    (hmem : item ∈ allItems sections) :
    (docuHash (pageIdOf o item) ++ ".json", jsonStringifyItem item) ∈
      (contentLoaded o b (some { openapiData := sections })).createDataCalls ∧
    (docuHash (pageIdOf o item) ++ "-description.md", item.description) ∈
      (contentLoaded o b (some { openapiData := sections })).createDataCalls ∧
    RouteConfig.mk item.permalink o.apiItemComponent true []
        (RouteModules.itemModules (docuHash (pageIdOf o item) ++ ".json") true
          (docuHash (pageIdOf o item) ++ "-description.md")) ∈
      (contentLoaded o b (some { openapiData := sections })).routes ∧
    (contentLoaded o b
        (some { openapiData := sections })).createDataCalls.length =
      2 * (allItems sections).length + 1 := by
  have hne : sections ≠ [] := by
    rintro rfl
    simp [allItems] at hmem
  obtain ⟨meta, hcre⟩ := contentLoaded_creates_eq o b sections hne
  have hroutes := contentLoaded_routes_eq o b sections hne
  have hart : (itemEmit o item).1 ∈
      (allItems sections).map (fun it => (itemEmit o it).1) :=
    List.mem_map_of_mem _ hmem
  have hmemflat : ∀ x ∈ (itemEmit o item).1,
      x ∈ ((allItems sections).map (fun it => (itemEmit o it).1)).flatten := by
    intro x hx
    exact List.mem_flatten.mpr ⟨_, hart, hx⟩
  refine ⟨?_, ?_, ?_, ?_⟩
  · rw [hcre]
    exact List.mem_append_left _ (hmemflat _ (by simp [itemEmit]))
  · rw [hcre]
    exact List.mem_append_left _ (hmemflat _ (by simp [itemEmit]))
  · rw [hroutes]
    exact List.mem_map_of_mem _ hmem
  · rw [hcre, List.length_append, List.length_flatten, List.map_map]
    have htwo : (allItems sections).map
        (List.length ∘ fun it => (itemEmit o it).1) =
        (allItems sections).map (fun _ => (2 : Nat)) := rfl
    rw [htwo, sum_map_two]
    simp

/-- Witness for C7 at a concrete section and item. -/
theorem contentLoaded_item_artifacts_witness :
    (docuHash (pageIdOf DEFAULT_OPTIONS sampleItem) ++ ".json",
        jsonStringifyItem sampleItem) ∈
      (contentLoaded DEFAULT_OPTIONS "/"
        (some { openapiData := [sampleSection] })).createDataCalls ∧
    (docuHash (pageIdOf DEFAULT_OPTIONS sampleItem) ++ "-description.md",
        sampleItem.description) ∈
      (contentLoaded DEFAULT_OPTIONS "/"
        (some { openapiData := [sampleSection] })).createDataCalls ∧
    RouteConfig.mk sampleItem.permalink DEFAULT_OPTIONS.apiItemComponent true []
        (RouteModules.itemModules
          (docuHash (pageIdOf DEFAULT_OPTIONS sampleItem) ++ ".json") true
          (docuHash (pageIdOf DEFAULT_OPTIONS sampleItem) ++ "-description.md")) ∈
      (contentLoaded DEFAULT_OPTIONS "/"
        (some { openapiData := [sampleSection] })).routes ∧
    (contentLoaded DEFAULT_OPTIONS "/"
        (some { openapiData := [sampleSection] })).createDataCalls.length =
      2 * (allItems [sampleSection]).length + 1 :=
  contentLoaded_item_artifacts DEFAULT_OPTIONS "/" [sampleSection] sampleItem
    (by decide)

end OpenApiPlugin
